import Mathlib

/-!
Verification of the runIOS command core
(src/packages/platform-ios/src/commands/runIOS/index.js).

The JavaScript source is shallowly embedded below.  External collaborators
(the filesystem, xcodebuild, simctl, instruments, PlistBuddy, ios-deploy,
and the imported helpers findXcodeProject / parseIOSDevicesList /
findMatchingSimulator, which live outside this repository slice) are
modelled by the data they hand to the core: device lists, process exit
codes and captured output are inputs of the embedded functions, and the
side effects the core performs are returned as an explicit trace of steps.
-/

namespace RunIOS

/-- A device record as consumed by the matching functions: the fields
`name`, `udid`, `version` and (for simulators) `booted` are the ones the
source reads. -/
structure Device where
  name : String
  udid : String
  version : String
  booted : Bool
deriving DecidableEq, Repr

/-- The JS value of `args.device`: either a literal string or the bare
flag value `true`. -/
inductive DeviceNameArg where
  | str : String → DeviceNameArg
  | flag : DeviceNameArg
deriving DecidableEq, Repr

/-- Source `formattedDeviceName(simulator)`:
returns the string `name (version)`. -/
def formattedDeviceName (simulator : Device) : String :=
  simulator.name ++ " (" ++ simulator.version ++ ")"

/-- The reverse-order scan shared by `matchingDevice` and
`matchingDeviceByUdid`: the source loops `for (let i = devices.length - 1;
i >= 0; i--)` and returns the first hit, i.e. the last hit in input
order.  Embedded structurally: first look in the tail, and only if the
tail has no hit test the head. -/
def findLastMatch (p : Device → Bool) : List Device → Option Device
  | [] => none
  | d :: ds =>
    match findLastMatch p ds with
    | some r => some r
    | none => if p d then some d else none

/-- The comparison performed inside the loop of `matchingDevice`:
`devices[i].name === deviceName || formattedDeviceName(devices[i]) ===
deviceName`.  When the JS value of `deviceName` is the boolean `true`,
both strict comparisons against strings are false. -/
def deviceNameEq (d : Device) : DeviceNameArg → Bool
  | DeviceNameArg.str s => d.name == s || formattedDeviceName d == s
  | DeviceNameArg.flag => false

/-- Source `matchingDevice(devices, deviceName)`.  Returns the selected
device together with the list of logger.info messages it emits: when
`deviceName === true && devices.length === 1` it returns `devices[0]` and
logs the implicit-selection note; otherwise it scans in reverse input
order. -/
def matchingDevice (devices : List Device) (deviceName : DeviceNameArg) :
    Option Device × List String :=
  match deviceName, devices with
  | DeviceNameArg.flag, [d] =>
    (some d, ["Using first available device " ++ d.name ++
      " due to lack of name supplied."])
  | dn, ds => (findLastMatch (fun d => deviceNameEq d dn) ds, [])

/-- Source `matchingDeviceByUdid(devices, udid)`: reverse scan for
`devices[i].udid === udid`. -/
def matchingDeviceByUdid (devices : List Device) (udid : String) : Option Device :=
  findLastMatch (fun d => d.udid == udid) devices

/-- Left-to-right accumulation of string appends, as the loop
`output += line` performs. -/
def concatAll : List String → String
  | [] => ""
  | s :: rest => s ++ concatAll rest

/-- Source `printFoundDevices(devices)`: builds `output` by appending
one line per device, looping from the last index down to 0, i.e. the
devices are rendered in reverse input order. -/
def printFoundDevices (devices : List Device) : String :=
  concatAll (devices.reverse.map (fun d => d.name ++ " Udid: " ++ d.udid ++ "\n"))

/-- The reverse scan computes the last satisfying element:
`findLastMatch p l` equals the last element of `l.filter p`. -/
theorem findLastMatch_eq_filter_getLast (p : Device → Bool) (l : List Device) :
    findLastMatch p l = (l.filter p).getLast? := by
  induction l with
  | nil => rfl
  | cons d ds ih =>
    by_cases hp : p d
    · cases h : findLastMatch p ds with
      | none =>
        have hnil : ds.filter p = [] := by
          have := ih; rw [h] at this
          exact (List.getLast?_eq_none_iff).1 this.symm
        simp [findLastMatch, h, hp, List.filter_cons, hnil]
      | some r =>
        have hlast : (ds.filter p).getLast? = some r := by rw [← ih, h]
        have hne : ds.filter p ≠ [] := by
          intro hcon; rw [hcon] at hlast; simp at hlast
        obtain ⟨x, xs, hx⟩ := List.exists_cons_of_ne_nil hne
        have hfc : (d :: ds).filter p = d :: x :: xs := by
          rw [List.filter_cons]; simp [hp, hx]
        have h2 : (x :: xs).getLast? = some r := hx ▸ hlast
        rw [hfc, List.getLast?_cons_cons, h2]
        simp [findLastMatch, h]
    · cases h : findLastMatch p ds with
      | none => simp [findLastMatch, h, hp, List.filter_cons, ← ih]
      | some r => simp [findLastMatch, h, hp, List.filter_cons, ← ih]

/-- `findLastMatch` returns none exactly when no element satisfies the
predicate. -/
theorem findLastMatch_eq_none_iff (p : Device → Bool) (l : List Device) :
    findLastMatch p l = none ↔ ∀ d ∈ l, ¬ p d := by
  rw [findLastMatch_eq_filter_getLast, List.getLast?_eq_none_iff,
    List.filter_eq_nil_iff]

/-- `findLastMatch` only returns elements of the list, and only ones
satisfying the predicate. -/
theorem findLastMatch_eq_some (p : Device → Bool) (l : List Device) (d : Device)
    (h : findLastMatch p l = some d) : p d = true ∧ d ∈ l := by
  induction l with
  | nil => simp [findLastMatch] at h
  | cons x xs ih =>
    rw [findLastMatch] at h
    cases hx : findLastMatch p xs with
    | some r =>
      rw [hx] at h
      injection h with h
      subst h
      have := ih hx
      exact ⟨this.1, List.mem_cons_of_mem _ this.2⟩
    | none =>
      rw [hx] at h
      by_cases hp : p x
      · simp only [hp, if_true] at h
        injection h with h
        subst h
        exact ⟨hp, List.mem_cons_self _ _⟩
      · simp [hp] at h

/-- On a literal (string) selector, `matchingDevice` always takes the
reverse-scan branch: the implicit-selection branch requires the JS value
`true`. -/
theorem matchingDevice_str (devices : List Device) (s : String) :
    matchingDevice devices (DeviceNameArg.str s)
      = (findLastMatch (fun d => deviceNameEq d (DeviceNameArg.str s)) devices, []) := by
  cases devices with
  | nil => rfl
  | cons d ds => cases ds <;> rfl

/-- C1: for every non-empty device list and every udid selector,
`matchingDeviceByUdid` returns the last device in the list whose udid
equals the selector (the scan is an exact match on the udid field in
reverse input order), and null (none) exactly when no device's udid
equals the selector. -/
theorem matchingDeviceByUdid_last_exact (devices : List Device) (udid : String)
    (_hne : devices ≠ []) :
    matchingDeviceByUdid devices udid
        = (devices.filter (fun d => d.udid == udid)).getLast?
      ∧ (matchingDeviceByUdid devices udid = none ↔
          ∀ d ∈ devices, d.udid ≠ udid) := by
  constructor
  · exact findLastMatch_eq_filter_getLast _ devices
  · rw [matchingDeviceByUdid, findLastMatch_eq_none_iff]
    constructor
    · intro h d hd
      have := h d hd
      simpa using this
    · intro h d hd
      simpa using h d hd

/-- Concrete check of C1: in a three-device list with a duplicated udid,
the later entry wins, and an unknown udid yields none. -/
theorem matchingDeviceByUdid_last_exact_witness :
    ([Device.mk "A" "u1" "12.0" false, Device.mk "B" "u2" "13.0" false,
        Device.mk "C" "u1" "14.0" false] : List Device) ≠ []
      ∧ (matchingDeviceByUdid
            [Device.mk "A" "u1" "12.0" false, Device.mk "B" "u2" "13.0" false,
              Device.mk "C" "u1" "14.0" false] "u1"
          = (([Device.mk "A" "u1" "12.0" false, Device.mk "B" "u2" "13.0" false,
              Device.mk "C" "u1" "14.0" false] : List Device).filter
                (fun d => d.udid == "u1")).getLast?
        ∧ (matchingDeviceByUdid
              [Device.mk "A" "u1" "12.0" false, Device.mk "B" "u2" "13.0" false,
                Device.mk "C" "u1" "14.0" false] "u1"
            = none ↔
            ∀ d ∈ ([Device.mk "A" "u1" "12.0" false,
                Device.mk "B" "u2" "13.0" false,
                Device.mk "C" "u1" "14.0" false] : List Device),
              d.udid ≠ "u1")) :=
  ⟨by decide, matchingDeviceByUdid_last_exact _ "u1" (by decide)⟩

/-- Fixture: an iPhone 8 at OS version 12.0. -/
def devA1 : Device := ⟨"iPhone 8", "ud12", "12.0", false⟩

/-- Fixture: an iPhone 8 at OS version 13.0, listed after `devA1`. -/
def devA2 : Device := ⟨"iPhone 8", "ud13", "13.0", false⟩

/-- C2: for every device list and literal name selector,
`matchingDevice` returns the last entry equal to the selector on either
the bare name or the composed display form name-space-parenthesised
version, and none exactly when no entry satisfies either equality. -/
theorem matchingDevice_literal_name (devices : List Device) (s : String) :
    (matchingDevice devices (DeviceNameArg.str s)).1
        = (devices.filter
            (fun d => d.name == s || formattedDeviceName d == s)).getLast?
      ∧ ((matchingDevice devices (DeviceNameArg.str s)).1 = none ↔
          ∀ d ∈ devices, d.name ≠ s ∧ formattedDeviceName d ≠ s)
      ∧ (∀ d, (matchingDevice devices (DeviceNameArg.str s)).1 = some d →
          (d.name = s ∨ formattedDeviceName d = s) ∧ d ∈ devices) := by
  rw [matchingDevice_str]
  refine ⟨findLastMatch_eq_filter_getLast _ devices, ?_, ?_⟩
  · rw [show ((findLastMatch (fun d => deviceNameEq d (DeviceNameArg.str s))
        devices, ([] : List String)).1)
        = findLastMatch (fun d => deviceNameEq d (DeviceNameArg.str s)) devices
        from rfl,
      findLastMatch_eq_none_iff]
    constructor
    · intro h d hd
      have := h d hd
      simp only [deviceNameEq, Bool.or_eq_true, beq_iff_eq] at this
      push_neg at this
      exact this
    · intro h d hd
      have := h d hd
      simp only [deviceNameEq, Bool.or_eq_true, beq_iff_eq]
      intro hcon
      rcases hcon with hc | hc
      · exact this.1 hc
      · exact this.2 hc
  · intro d hd
    have := findLastMatch_eq_some _ _ _ hd
    refine ⟨?_, this.2⟩
    have h1 := this.1
    simp only [deviceNameEq, Bool.or_eq_true, beq_iff_eq] at h1
    exact h1

/-- Concrete check of C2 (the spec's end-to-end scenario A): two devices
named iPhone 8 at versions 12.0 and 13.0; the selector composed of name
and version resolves to the 13.0 entry. -/
theorem matchingDevice_literal_name_witness :
    (matchingDevice [devA1, devA2] (DeviceNameArg.str "iPhone 8 (13.0)")).1
        = some devA2
      ∧ ((matchingDevice [devA1, devA2] (DeviceNameArg.str "iPhone 8 (13.0)")).1
          = ([devA1, devA2].filter
              (fun d => d.name == "iPhone 8 (13.0)"
                || formattedDeviceName d == "iPhone 8 (13.0)")).getLast?) :=
  ⟨by decide, (matchingDevice_literal_name [devA1, devA2] "iPhone 8 (13.0)").1⟩

/-- C3: `matchingDevice` with the bare-flag ("any") selector returns the
single device together with the informational implicit-selection note
when the list has exactly one element, and none (with no note) when the
list has zero or at least two elements. -/
theorem matchingDevice_any_selector (devices : List Device) :
    (devices.length = 1 →
        ∃ d, devices = [d] ∧
          matchingDevice devices DeviceNameArg.flag
            = (some d, ["Using first available device " ++ d.name ++
                " due to lack of name supplied."]))
      ∧ (devices.length ≠ 1 →
          matchingDevice devices DeviceNameArg.flag = (none, [])) := by
  cases devices with
  | nil =>
    refine ⟨fun h => absurd h (by simp), fun _ => rfl⟩
  | cons d ds =>
    cases ds with
    | nil => exact ⟨fun _ => ⟨d, rfl, rfl⟩, fun h => absurd rfl h⟩
    | cons e es =>
      refine ⟨fun h => absurd h (by simp), fun _ => ?_⟩
      show (findLastMatch (fun x => deviceNameEq x DeviceNameArg.flag)
        (d :: e :: es), ([] : List String)) = (none, [])
      rw [(findLastMatch_eq_none_iff _ _).2
        (fun x _ => by simp [deviceNameEq])]

/-- Concrete check of C3: a one-element list is auto-selected with the
note; a two-element list yields none and no note. -/
theorem matchingDevice_any_selector_witness :
    (∃ d, ([devA1] : List Device) = [d] ∧
        matchingDevice [devA1] DeviceNameArg.flag
          = (some d, ["Using first available device " ++ d.name ++
              " due to lack of name supplied."]))
      ∧ matchingDevice [devA1, devA2] DeviceNameArg.flag = (none, []) :=
  ⟨(matchingDevice_any_selector [devA1]).1 (by decide),
   (matchingDevice_any_selector [devA1, devA2]).2 (by decide)⟩

/-! ### Artifact-name extraction (getProductName)

The source scans the accumulated xcodebuild stdout with the regular
expression export FULL_PRODUCT_NAME=quote-opt group-of-any dot app
quote-opt dollar in multiline mode and keeps the first capture group of
the first (leftmost) match.  The embedding below reproduces the engine's
semantics for exactly this pattern: positions are tried left to right;
at a position the literal must occur, and the rest of the pattern can
only consume characters of the current line and must end at the line
end, with the greedy capture preferring the longest group. -/

/-- The line terminators of a JavaScript regular expression in multiline
mode: dollar matches before these and dot never matches them. -/
def isLineTerm (c : Char) : Bool :=
  c = '\n' || c = '\r' || c = '\u2028' || c = '\u2029'

/-- The fixed literal the pattern starts with. -/
def productNameLit : List Char := "export FULL_PRODUCT_NAME=".data

/-- The pattern tail after the optional opening quote: greedy group,
then one arbitrary character, the letters app, and an optional closing
quote, ending exactly at the end of the line.  The greedy group takes
the longest capture whose remaining suffix fits, i.e. the 4-character suffix
is preferred over the 5-character quoted one. -/
def tailCore (rest : List Char) : Option (List Char) :=
  if 5 ≤ rest.length ∧ rest.drop (rest.length - 3) = ['a', 'p', 'p'] then
    some (rest.take (rest.length - 4))
  else if 6 ≤ rest.length ∧ rest.drop (rest.length - 4) = ['a', 'p', 'p', '"'] then
    some (rest.take (rest.length - 5))
  else none

/-- The optional opening quote is greedy: with a leading quote the
engine first tries consuming it, and only if the rest then fails does it
retry leaving the quote to the captured group. -/
def tailCapture (rest : List Char) : Option (List Char) :=
  if rest.head? = some '"' then
    match tailCore (rest.drop 1) with
    | some cap => some cap
    | none => tailCore rest
  else tailCore rest

/-- One attempt of exec at a fixed position: the pattern matches here
iff the literal is a prefix and the tail consumes exactly the remainder
of the current line. -/
def matchAtPos (cs : List Char) : Option (List Char) :=
  if productNameLit.isPrefixOf cs then
    tailCapture ((cs.drop productNameLit.length).takeWhile (fun c => !isLineTerm c))
  else none

/-- exec: scan start positions left to right; the first position with a
match wins. -/
def execProductName : List Char → Option (List Char)
  | [] => none
  | c :: cs =>
    match matchAtPos (c :: cs) with
    | some cap => some cap
    | none => execProductName cs

/-- Source getProductName(buildOutput): the first capture group of the
regex match, or null. -/
def getProductName (buildOutput : String) : Option String :=
  (execProductName buildOutput.data).map String.mk

/-- JS logical-or over a possibly-null, possibly-empty string: null and
the empty string are falsy. -/
def jsOrStr : Option String → String → String
  | none, dflt => dflt
  | some s, dflt => if s = "" then dflt else s

/-- The artifact name the build step resolves with:
getProductName(buildOutput) or-else the requested scheme. -/
def resolvedProductName (buildOutput scheme : String) : String :=
  jsOrStr (getProductName buildOutput) scheme

/-- exec returns none exactly when no start position matches. -/
theorem execProductName_eq_none_iff (cs : List Char) :
    execProductName cs = none ↔ ∀ sfx, sfx <:+ cs → matchAtPos sfx = none := by
  induction cs with
  | nil =>
    constructor
    · intro _ sfx hs
      rw [List.suffix_nil.mp hs]
      decide
    · intro _; rfl
  | cons c cs ih =>
    rw [execProductName]
    cases hm : matchAtPos (c :: cs) with
    | some cap =>
      constructor
      · intro hcon; cases hcon
      · intro h
        have := h (c :: cs) (List.suffix_refl _)
        rw [this] at hm; cases hm
    | none =>
      rw [ih]
      constructor
      · intro h sfx hs
        rcases List.suffix_cons_iff.mp hs with rfl | hs'
        · exact hm
        · exact h sfx hs'
      · intro h sfx hs
        exact h sfx (List.suffix_cons_iff.mpr (Or.inr hs))

/-- When exec succeeds, the capture comes from the least matching start
position. -/
theorem execProductName_eq_some (cs cap : List Char)
    (h : execProductName cs = some cap) :
    ∃ n, matchAtPos (cs.drop n) = some cap
      ∧ ∀ m < n, matchAtPos (cs.drop m) = none := by
  induction cs with
  | nil => simp [execProductName] at h
  | cons c cs ih =>
    rw [execProductName] at h
    cases hm : matchAtPos (c :: cs) with
    | some cap2 =>
      rw [hm] at h
      injection h with h
      subst h
      exact ⟨0, hm, fun m hmlt => absurd hmlt (Nat.not_lt_zero m)⟩
    | none =>
      rw [hm] at h
      obtain ⟨n, h1, h2⟩ := ih h
      refine ⟨n + 1, h1, ?_⟩
      intro m hmlt
      cases m with
      | zero => exact hm
      | succ k => exact h2 k (by omega)

/-- The greedy group of the pattern has at least one character, so a
successful tail match never captures the empty string. -/
theorem tailCore_some_ne_nil (rest cap : List Char)
    (h : tailCore rest = some cap) : cap ≠ [] := by
  unfold tailCore at h
  split at h
  next hc =>
    injection h with h
    subst h
    intro hnil
    have := congrArg List.length hnil
    rw [List.length_take] at this
    simp at this
    omega
  next =>
    split at h
    next hc =>
      injection h with h
      subst h
      intro hnil
      have := congrArg List.length hnil
      rw [List.length_take] at this
      simp at this
      omega
    next => cases h

/-- Lifting of the nonempty-capture fact through the optional quote. -/
theorem tailCapture_some_ne_nil (rest cap : List Char)
    (h : tailCapture rest = some cap) : cap ≠ [] := by
  unfold tailCapture at h
  split at h
  · cases h2 : tailCore (rest.drop 1) with
    | some c2 =>
      rw [h2] at h
      injection h with h
      subst h
      exact tailCore_some_ne_nil _ _ h2
    | none =>
      rw [h2] at h
      exact tailCore_some_ne_nil _ _ h
  · exact tailCore_some_ne_nil _ _ h

/-- Lifting of the nonempty-capture fact to a whole exec attempt. -/
theorem matchAtPos_some_ne_nil (cs cap : List Char)
    (h : matchAtPos cs = some cap) : cap ≠ [] := by
  unfold matchAtPos at h
  split at h
  · exact tailCapture_some_ne_nil _ _ h
  · cases h

/-- C4: artifact-name extraction is a pure function of the build-output
text (re-extraction yields the same name); when no position of the text
matches the product-name pattern the resolved name is the requested
scheme; and when exec succeeds the name is the capture of the first
(leftmost) matching position. -/
theorem getProductName_extraction (t scheme : String) :
    resolvedProductName t scheme = resolvedProductName t scheme
      ∧ ((∀ sfx, sfx <:+ t.data → matchAtPos sfx = none) →
          resolvedProductName t scheme = scheme)
      ∧ (∀ cap, execProductName t.data = some cap →
          resolvedProductName t scheme = String.mk cap
            ∧ ∃ n, matchAtPos (t.data.drop n) = some cap
                ∧ ∀ m < n, matchAtPos (t.data.drop m) = none) := by
  refine ⟨rfl, ?_, ?_⟩
  · intro h
    have hn : execProductName t.data = none := (execProductName_eq_none_iff _).2 h
    simp [resolvedProductName, getProductName, jsOrStr, hn]
  · intro cap h
    constructor
    · have hnn : cap ≠ [] := by
        obtain ⟨n, h1, _⟩ := execProductName_eq_some _ _ h
        exact matchAtPos_some_ne_nil _ _ h1
      have hne : String.mk cap ≠ "" := by
        intro hcon
        exact hnn (by simpa using congrArg String.data hcon)
      simp [resolvedProductName, getProductName, h, jsOrStr, hne]
    · exact execProductName_eq_some _ _ h

/-- Concrete check of C4: a text without the export line resolves to the
scheme name; a text with it resolves to the captured product name. -/
theorem getProductName_extraction_witness :
    resolvedProductName "no product line here" "SchemeName" = "SchemeName"
      ∧ resolvedProductName "export FULL_PRODUCT_NAME=MyApp.app" "SchemeName"
          = "MyApp" :=
  ⟨(getProductName_extraction _ _).2.1
      ((execProductName_eq_none_iff _).1 (by decide)),
   (((getProductName_extraction _ _).2.2 (['M', 'y', 'A', 'p', 'p'])
      (by decide)).1).trans (by decide)⟩

/-! ### Build-path construction (getBuildPath) -/

/-- JS String.prototype.toLowerCase, character by character (the marker
the source scans for is plain ASCII tvos, for which the ASCII lowering
of Char.toLower is exact). -/
def jsToLowerCase (s : String) : String := String.mk (s.data.map Char.toLower)

/-- JS String.prototype.includes on character lists: does the needle
occur as a contiguous substring? -/
def listIncludes (needle : List Char) : List Char → Bool
  | [] => needle.isEmpty
  | c :: t => needle.isPrefixOf (c :: t) || listIncludes needle t

/-- JS s.includes(sub). -/
def jsIncludes (s sub : String) : Bool := listIncludes sub.data s.data

/-- Source getBuildPath(configuration, appName, isDevice, scheme). -/
def getBuildPath (configuration appName : String) (isDevice : Bool)
    (scheme : String) : String :=
  let device :=
    if isDevice then "iphoneos"
    else if jsIncludes (jsToLowerCase appName) "tvos" then "appletvsimulator"
    else "iphonesimulator"
  "build/" ++ scheme ++ "/Build/Products/" ++ configuration ++ "-" ++ device
    ++ "/" ++ appName ++ ".app"

/-- Spec-side definition of the platform triplet, written from the
spec's words for comparison with the source's getBuildPath: the
physical-device triplet wins outright, else the TV marker selects the
TV-simulator triplet, else the phone-simulator triplet. -/
def platformTripletSpec (physical tvMarker : Bool) : String :=
  if physical then "iphoneos"
  else if tvMarker then "appletvsimulator"
  else "iphonesimulator"

/-- C5: for all configuration, artifact-name and scheme strings the
constructed path is the destination directory (build/scheme) followed by
/Build/Products/configuration-triplet/artifactName.app with the triplet
chosen as the spec states, and the concrete Debug / MyApp / virtual /
no-tvos instance ends in Debug-iphonesimulator/MyApp.app, a tvos-marked
name selects appletvsimulator, and a physical target selects iphoneos
regardless of the name. -/
theorem getBuildPath_spec (configuration appName scheme : String)
    (isDevice : Bool) :
    getBuildPath configuration appName isDevice scheme
        = "build/" ++ scheme ++ "/Build/Products/" ++ configuration ++ "-"
            ++ platformTripletSpec isDevice (jsIncludes (jsToLowerCase appName) "tvos")
            ++ "/" ++ appName ++ ".app"
      ∧ getBuildPath "Debug" "MyApp" false "MyApp"
          = "build/MyApp/Build/Products/Debug-iphonesimulator/MyApp.app"
      ∧ getBuildPath "Debug" "MyTVOSApp" false "Scheme"
          = "build/Scheme/Build/Products/Debug-appletvsimulator/MyTVOSApp.app"
      ∧ getBuildPath "Debug" "MyTVOSApp" true "Scheme"
          = "build/Scheme/Build/Products/Debug-iphoneos/MyTVOSApp.app" := by
  refine ⟨?_, by decide, by decide, by decide⟩
  cases isDevice with
  | true => rfl
  | false =>
    cases h : jsIncludes (jsToLowerCase appName) "tvos" with
    | true => simp [getBuildPath, platformTripletSpec, h]
    | false => simp [getBuildPath, platformTripletSpec, h]

/-! ### The deploy coordinator

The subprocess world is an explicit environment; the side effects the
core performs are returned as a trace of steps, and a thrown/rejected
error as an optional error value. -/

/-- The discovered Xcode project file. -/
structure XcodeProject where
  name : String
  isWorkspace : Bool
deriving DecidableEq, Repr

/-- The FlagsT record of command-line arguments. -/
structure FlagsT where
  simulator : String
  configuration : String
  scheme : Option String
  projectPath : String
  device : Option DeviceNameArg
  udid : Option String
  packager : Bool
  verbose : Bool
  port : Nat
  terminal : Option String
deriving DecidableEq, Repr

/-- CLIError(message, originalError): the second argument is the
captured stderr text (empty when the source passes none). -/
structure CLIErr where
  message : String
  originalError : String
deriving DecidableEq, Repr

/-- An error that escapes the run: a CLIError the source constructs, or
an exception thrown by a synchronous subprocess call. -/
inductive RunError where
  | cli (e : CLIErr)
  | subprocess (msg : String)
deriving DecidableEq, Repr

/-- Observable side effects of a run, in order. -/
inductive Step where
  | openSimulatorApp (udid : String)
  | bootInstruments (udid : String)
  | xcodebuild
  | simctlInstall (udid appPath : String) (status : Int)
  | readBundleId (plistPath : String)
  | simctlLaunch (udid bundleId : String) (status : Int)
  | iosDeploy (deployArgs : List String) (failed : Bool)
  | logInfo (msg : String)
  | logError (msg : String)
deriving DecidableEq, Repr

/-- Behaviour of the xcodebuild child process: exit code and the
accumulated stdout/stderr texts. -/
structure BuildEnv where
  exitCode : Int
  stdout : String
  stderr : String
deriving DecidableEq, Repr

/-- Behaviour of the instruments -w boot call: spawnSync either returns
(with some exit code, 255 in the known quirk) or throws. -/
inductive BootOutcome where
  | exited (code : Int)
  | threw (msg : String)
deriving DecidableEq, Repr

/-- Behaviour of the PlistBuddy bundle-metadata read: execFileSync
either returns the raw stdout or throws. -/
inductive PlistOutcome where
  | ok (raw : String)
  | threw (msg : String)
deriving DecidableEq, Repr

/-- Environment of the virtual-device path. -/
structure SimEnv where
  boot : BootOutcome
  build : BuildEnv
  installStatus : Int
  plist : PlistOutcome
  launchStatus : Int
deriving DecidableEq, Repr

/-- Environment of the physical-device path: iosDeployError is the
error field of the spawnSync result (set when spawning ios-deploy
itself failed; a non-zero exit of a spawned ios-deploy leaves it
unset). -/
structure DevEnv where
  build : BuildEnv
  iosDeployError : Bool
deriving DecidableEq, Repr

/-- The JS trim() applied to the PlistBuddy output. -/
def strTrim (s : String) : String :=
  String.mk (((s.data.dropWhile Char.isWhitespace).reverse.dropWhile
    Char.isWhitespace).reverse)

/-- The template-literal message of the build-failure CLIError,
interpolating the exit code and the project name. -/
def buildFailMessage (code : Int) (projectName : String) : String :=
  "\n            Failed to build iOS project.\n\n            We ran \"xcodebuild\" command but it exited with error code "
    ++ toString code
    ++ (". To debug build\n            logs further, consider building your app with "
    ++ ("Xcode.app"
    ++ (", by opening\n            "
    ++ (projectName ++ ".\n          "))))

/-- Source buildProject(xcodeProject, udid, scheme, args): constructs
the xcodebuild argument vector, spawns the tool, and on close rejects
with the CLIError carrying the accumulated stderr when the exit code is
non-zero, else resolves with getProductName(buildOutput) or the
scheme. -/
def buildProject (env : BuildEnv) (xcodeProject : XcodeProject)
    (udid scheme : String) (args : FlagsT) : List Step × Except CLIErr String :=
  let xcodebuildArgs :=
    [if xcodeProject.isWorkspace then "-workspace" else "-project",
     xcodeProject.name, "-configuration", args.configuration, "-scheme", scheme,
     "-destination", "id=" ++ udid, "-derivedDataPath", "build/" ++ scheme]
  ([Step.logInfo ("Building using \"xcodebuild "
      ++ String.intercalate " " xcodebuildArgs ++ "\""),
    Step.xcodebuild],
   if env.exitCode ≠ 0 then
     Except.error ⟨buildFailMessage env.exitCode xcodeProject.name, env.stderr⟩
   else
     Except.ok (resolvedProductName env.stdout scheme))

/-- The error that escapes bootSimulator's try/catch: spawnSync does not
throw on a non-zero exit, and a thrown failure is caught by the
catch-ignored handler, so nothing ever escapes. -/
def bootErrorAfterCatch : BootOutcome → Option RunError
  | BootOutcome.exited _ => none
  | BootOutcome.threw _ => none

/-- Source bootSimulator(selectedSimulator): log, then spawn
instruments -w inside the try/catch. -/
def bootSimulator (outcome : BootOutcome) (selectedSimulator : Device) :
    List Step × Option RunError :=
  ([Step.logInfo ("Launching " ++ formattedDeviceName selectedSimulator ++ "..."),
    Step.bootInstruments selectedSimulator.udid],
   bootErrorAfterCatch outcome)

/-- Source runOnSimulator from the point where the simulator has been
selected (the inventory query and findMatchingSimulator are external
collaborators): open Simulator.app, boot if not booted, build, install,
read the bundle id, launch.  The install and launch spawnSync results
are ignored by the source; the PlistBuddy execFileSync throws on
failure. -/
def runOnSimulator (env : SimEnv) (selectedSimulator : Device)
    (xcodeProject : XcodeProject) (scheme : String) (args : FlagsT) :
    List Step × Option RunError :=
  let pre := [Step.openSimulatorApp selectedSimulator.udid]
  let boot :=
    if selectedSimulator.booted then (([] : List Step), (none : Option RunError))
    else bootSimulator env.boot selectedSimulator
  match boot.2 with
  | some e => (pre ++ boot.1, some e)
  | none =>
    let b := buildProject env.build xcodeProject selectedSimulator.udid scheme args
    match b.2 with
    | Except.error e => (pre ++ boot.1 ++ b.1, some (RunError.cli e))
    | Except.ok appName =>
      let appPath := getBuildPath args.configuration appName false scheme
      let installed := pre ++ boot.1 ++ b.1
        ++ [Step.logInfo ("Installing " ++ appPath),
            Step.simctlInstall selectedSimulator.udid appPath env.installStatus,
            Step.readBundleId (appPath ++ "/Info.plist")]
      match env.plist with
      | PlistOutcome.threw msg => (installed, some (RunError.subprocess msg))
      | PlistOutcome.ok raw =>
        (installed
          ++ [Step.logInfo ("Launching " ++ strTrim raw),
              Step.simctlLaunch selectedSimulator.udid (strTrim raw)
                env.launchStatus],
          none)

/-- The remediation text logged when the ios-deploy spawn reported an
error. -/
def installFailedMessage : String :=
  "** INSTALLATION FAILED **\nMake sure you have ios-deploy installed globally.\n(e.g \"npm install -g ios-deploy\")"

/-- Source runOnDevice(selectedDevice, scheme, xcodeProject, args). -/
def runOnDevice (env : DevEnv) (selectedDevice : Device) (scheme : String)
    (xcodeProject : XcodeProject) (args : FlagsT) : List Step × Option RunError :=
  let b := buildProject env.build xcodeProject selectedDevice.udid scheme args
  match b.2 with
  | Except.error e => (b.1, some (RunError.cli e))
  | Except.ok appName =>
    let iosDeployInstallArgs :=
      ["--bundle", getBuildPath args.configuration appName true scheme,
       "--id", selectedDevice.udid, "--justlaunch"]
    (b.1
      ++ [Step.logInfo ("Installing and launching your app on "
            ++ selectedDevice.name ++ "..."),
          Step.iosDeploy iosDeployInstallArgs env.iosDeployError]
      ++ (if env.iosDeployError then [Step.logError installFailedMessage]
          else [Step.logInfo "** INSTALLATION SUCCEEDED **"]),
      none)

/-! ### Target selection inside runIOS -/

/-- JS truthiness of the args.device value: undefined and the empty
string are falsy, the bare flag true and non-empty strings truthy. -/
def truthyDevice : Option DeviceNameArg → Bool
  | none => false
  | some DeviceNameArg.flag => true
  | some (DeviceNameArg.str s) => !(s == "")

/-- JS truthiness of the args.udid value. -/
def truthyUdid : Option String → Bool
  | none => false
  | some s => !(s == "")

/-- JS template-literal interpolation of the device value. -/
def deviceArgToString : Option DeviceNameArg → String
  | some (DeviceNameArg.str s) => s
  | some DeviceNameArg.flag => "true"
  | none => "undefined"

/-- The ternary device ? matchingDevice(devices, device) :
matchingDeviceByUdid(devices, udid), together with the matcher's log
messages. -/
def selectedDeviceOf (devices : List Device) (args : FlagsT) :
    Option Device × List String :=
  if truthyDevice args.device then
    matchingDevice devices (args.device.getD DeviceNameArg.flag)
  else (matchingDeviceByUdid devices (args.udid.getD ""), [])

/-- The could-not-find diagnostic, one variant per selector kind, each
rendering the candidate list via printFoundDevices. -/
def notFoundMessage (devices : List Device) (args : FlagsT) : String :=
  if truthyDevice args.device then
    "Could not find device with the name: \"" ++ deviceArgToString args.device
      ++ "\". Choose one of the following:\n" ++ printFoundDevices devices
  else
    "Could not find device with the udid: \"" ++ args.udid.getD ""
      ++ "\". Choose one of the following:\n" ++ printFoundDevices devices

/-- How the run continues after the selector branch of runIOS. -/
inductive RunStart where
  | onDevice (d : Device)
  | errorMessage (msg : String)
  | simulatorFlow
deriving DecidableEq, Repr

/-- The selector branch of runIOS (lines 74-100 of the source): when
device or udid is truthy, pick a device by the ternary and either run
on it, or log the not-found diagnostic (the list variant when candidates
exist, the no-devices message otherwise); with neither selector truthy,
fall through to the simulator flow. -/
def selectRun (devices : List Device) (args : FlagsT) : RunStart × List String :=
  if truthyDevice args.device || truthyUdid args.udid then
    let sel := selectedDeviceOf devices args
    match sel.1 with
    | some d => (RunStart.onDevice d, sel.2)
    | none =>
      if 0 < devices.length then
        (RunStart.errorMessage (notFoundMessage devices args), sel.2)
      else (RunStart.errorMessage "No iOS devices connected.", sel.2)
  else (RunStart.simulatorFlow, [])

/-- The external world of a whole run: whether the simulator inventory
JSON parses, the simulator findMatchingSimulator picks (an external
collaborator), and the two deploy environments. -/
structure RunEnv where
  simListParses : Bool
  selectedSimulator : Option Device
  sim : SimEnv
  dev : DevEnv
deriving DecidableEq, Repr

/-- Source runIOS from the point where the project and the physical
device list have been discovered (filesystem access, findXcodeProject
and parseIOSDevicesList are external collaborators). -/
def runIOS (env : RunEnv) (devices : List Device) (xcodeProject : XcodeProject)
    (inferredSchemeName : String) (args : FlagsT) : List Step × Option RunError :=
  let scheme := jsOrStr args.scheme inferredSchemeName
  let found := Step.logInfo ("Found Xcode "
    ++ (if xcodeProject.isWorkspace then "workspace" else "project")
    ++ " " ++ xcodeProject.name)
  match selectRun devices args with
  | (RunStart.onDevice d, logs) =>
    let r := runOnDevice env.dev d scheme xcodeProject args
    (found :: (logs.map Step.logInfo ++ r.1), r.2)
  | (RunStart.errorMessage m, logs) =>
    (found :: (logs.map Step.logInfo ++ [Step.logError m]), none)
  | (RunStart.simulatorFlow, _) =>
    if !env.simListParses then
      ([found], some (RunError.cli ⟨"Could not parse the simulator list output", ""⟩))
    else
      match env.selectedSimulator with
      | none => ([found], some (RunError.cli
          ⟨"Could not find " ++ args.simulator ++ " simulator", ""⟩))
      | some sim =>
        let r := runOnSimulator env.sim sim xcodeProject scheme args
        (found :: r.1, r.2)

/-- Install or launch subprocess invocations. -/
def isInstallOrLaunchStep : Step → Bool
  | Step.simctlInstall _ _ _ => true
  | Step.simctlLaunch _ _ _ => true
  | Step.iosDeploy _ _ => true
  | _ => false

/-- The build-tool invocation. -/
def isBuildInvocation : Step → Bool
  | Step.xcodebuild => true
  | _ => false

/-- logger.error steps. -/
def isLogErrorStep : Step → Bool
  | Step.logError _ => true
  | _ => false

/-- Substring occurrence, stated structurally. -/
def strContains (hay sub : String) : Prop := ∃ p q, hay = p ++ (sub ++ q)

/-- The boot wrapper never surfaces an error, for any boot outcome. -/
theorem bootErrorAfterCatch_eq_none (o : BootOutcome) :
    bootErrorAfterCatch o = none := by
  cases o <;> rfl

/-- Unfolding of runOnSimulator: since the boot call never surfaces an
error, the run always continues past it into the build. -/
theorem runOnSimulator_unfold (env : SimEnv) (sim : Device)
    (proj : XcodeProject) (scheme : String) (args : FlagsT) :
    runOnSimulator env sim proj scheme args
      = (let pre := Step.openSimulatorApp sim.udid
            :: (if sim.booted then [] else (bootSimulator env.boot sim).1)
         let b := buildProject env.build proj sim.udid scheme args
         match b.2 with
         | Except.error e => (pre ++ b.1, some (RunError.cli e))
         | Except.ok appName =>
           let appPath := getBuildPath args.configuration appName false scheme
           let installed := pre ++ b.1
             ++ [Step.logInfo ("Installing " ++ appPath),
                 Step.simctlInstall sim.udid appPath env.installStatus,
                 Step.readBundleId (appPath ++ "/Info.plist")]
           match env.plist with
           | PlistOutcome.threw msg => (installed, some (RunError.subprocess msg))
           | PlistOutcome.ok raw =>
             (installed
               ++ [Step.logInfo ("Launching " ++ strTrim raw),
                   Step.simctlLaunch sim.udid (strTrim raw) env.launchStatus],
              none)) := by
  obtain ⟨boot, build, installStatus, plist, launchStatus⟩ := env
  obtain ⟨nm, ud, ver, booted⟩ := sim
  cases boot <;> cases booted <;> rfl

/-- The steps of the build invocation. -/
theorem buildProject_fst (benv : BuildEnv) (proj : XcodeProject)
    (udid scheme : String) (args : FlagsT) :
    (buildProject benv proj udid scheme args).1
      = [Step.logInfo ("Building using \"xcodebuild "
          ++ String.intercalate " "
            [if proj.isWorkspace then "-workspace" else "-project",
             proj.name, "-configuration", args.configuration, "-scheme", scheme,
             "-destination", "id=" ++ udid, "-derivedDataPath",
             "build/" ++ scheme]
          ++ "\""), Step.xcodebuild] := rfl

/-- With a non-zero build exit code the virtual-device run fails with
the build CLIError and its trace ends at the build invocation. -/
theorem runOnSimulator_build_fail (env : SimEnv) (sim : Device)
    (proj : XcodeProject) (scheme : String) (args : FlagsT)
    (h : env.build.exitCode ≠ 0) :
    runOnSimulator env sim proj scheme args
      = (Step.openSimulatorApp sim.udid
          :: ((if sim.booted then [] else (bootSimulator env.boot sim).1)
            ++ (buildProject env.build proj sim.udid scheme args).1),
         some (RunError.cli ⟨buildFailMessage env.build.exitCode proj.name,
           env.build.stderr⟩)) := by
  have hb2 : (buildProject env.build proj sim.udid scheme args).2
      = Except.error ⟨buildFailMessage env.build.exitCode proj.name,
          env.build.stderr⟩ := by
    simp [buildProject, h]
  rw [runOnSimulator_unfold]
  simp only [hb2, List.cons_append]

/-- The app path the simulator flow installs from. -/
def simAppPath (env : SimEnv) (scheme : String) (args : FlagsT) : String :=
  getBuildPath args.configuration (resolvedProductName env.build.stdout scheme)
    false scheme

/-- With a zero build exit and a successful bundle-metadata read, the
virtual-device run performs install, metadata read and launch, and
surfaces no error regardless of the install and launch statuses. -/
theorem runOnSimulator_build_ok_plist_ok (env : SimEnv) (sim : Device)
    (proj : XcodeProject) (scheme : String) (args : FlagsT) (raw : String)
    (h0 : env.build.exitCode = 0) (hp : env.plist = PlistOutcome.ok raw) :
    runOnSimulator env sim proj scheme args
      = (Step.openSimulatorApp sim.udid
          :: ((if sim.booted then [] else (bootSimulator env.boot sim).1)
            ++ (buildProject env.build proj sim.udid scheme args).1
            ++ [Step.logInfo ("Installing " ++ simAppPath env scheme args),
                Step.simctlInstall sim.udid (simAppPath env scheme args)
                  env.installStatus,
                Step.readBundleId (simAppPath env scheme args ++ "/Info.plist"),
                Step.logInfo ("Launching " ++ strTrim raw),
                Step.simctlLaunch sim.udid (strTrim raw) env.launchStatus]),
         none) := by
  have hb2 : (buildProject env.build proj sim.udid scheme args).2
      = Except.ok (resolvedProductName env.build.stdout scheme) := by
    simp [buildProject, h0]
  rw [runOnSimulator_unfold]
  simp only [hb2, hp, simAppPath, List.cons_append, List.append_assoc,
    List.cons_append, List.nil_append]

/-- With a zero build exit and a throwing bundle-metadata read, the
virtual-device run raises the subprocess error after the install and the
metadata read, before any launch. -/
theorem runOnSimulator_build_ok_plist_threw (env : SimEnv) (sim : Device)
    (proj : XcodeProject) (scheme : String) (args : FlagsT) (msg : String)
    (h0 : env.build.exitCode = 0) (hp : env.plist = PlistOutcome.threw msg) :
    runOnSimulator env sim proj scheme args
      = (Step.openSimulatorApp sim.udid
          :: ((if sim.booted then [] else (bootSimulator env.boot sim).1)
            ++ (buildProject env.build proj sim.udid scheme args).1
            ++ [Step.logInfo ("Installing " ++ simAppPath env scheme args),
                Step.simctlInstall sim.udid (simAppPath env scheme args)
                  env.installStatus,
                Step.readBundleId (simAppPath env scheme args ++ "/Info.plist")]),
         some (RunError.subprocess msg)) := by
  have hb2 : (buildProject env.build proj sim.udid scheme args).2
      = Except.ok (resolvedProductName env.build.stdout scheme) := by
    simp [buildProject, h0]
  rw [runOnSimulator_unfold]
  simp only [hb2, hp, simAppPath, List.cons_append, List.append_assoc,
    List.nil_append]

/-- No step among the pre-build and build steps of the simulator flow is
an install or launch invocation. -/
theorem no_install_in_prebuild (env : SimEnv) (sim : Device)
    (proj : XcodeProject) (scheme : String) (args : FlagsT) :
    ∀ s ∈ Step.openSimulatorApp sim.udid
        :: ((if sim.booted then [] else (bootSimulator env.boot sim).1)
          ++ (buildProject env.build proj sim.udid scheme args).1),
      isInstallOrLaunchStep s = false := by
  intro s hs
  rw [buildProject_fst] at hs
  simp only [List.mem_cons, List.mem_append] at hs
  rcases hs with rfl | hs | rfl | rfl | hs
  · rfl
  · cases hb : sim.booted
    · rw [hb] at hs
      simp [bootSimulator] at hs
      rcases hs with rfl | rfl
      · rfl
      · rfl
    · rw [hb] at hs
      simp at hs
  · rfl
  · rfl
  · cases hs

/-- C6: the build step resolves exactly on exit code 0; on non-zero exit
it rejects with a CLIError carrying the accumulated stderr text and a
message interpolating the exit code and the open-in-Xcode hint, and
neither deploy path performs any install or launch step afterwards. -/
theorem buildProject_gate (benv : BuildEnv) (proj : XcodeProject)
    (udid scheme : String) (args : FlagsT) (senv : SimEnv) (denv : DevEnv)
    (sim d : Device) :
    ((∃ a, (buildProject benv proj udid scheme args).2 = Except.ok a) ↔
        benv.exitCode = 0)
      ∧ (benv.exitCode ≠ 0 →
          (buildProject benv proj udid scheme args).2
            = Except.error ⟨buildFailMessage benv.exitCode proj.name, benv.stderr⟩
          ∧ strContains (buildFailMessage benv.exitCode proj.name)
              (toString benv.exitCode)
          ∧ strContains (buildFailMessage benv.exitCode proj.name) "Xcode.app")
      ∧ (senv.build.exitCode ≠ 0 →
          (runOnSimulator senv sim proj scheme args).2
            = some (RunError.cli
                ⟨buildFailMessage senv.build.exitCode proj.name,
                 senv.build.stderr⟩)
          ∧ ∀ s ∈ (runOnSimulator senv sim proj scheme args).1,
              isInstallOrLaunchStep s = false)
      ∧ (denv.build.exitCode ≠ 0 →
          (runOnDevice denv d scheme proj args).2
            = some (RunError.cli
                ⟨buildFailMessage denv.build.exitCode proj.name,
                 denv.build.stderr⟩)
          ∧ ∀ s ∈ (runOnDevice denv d scheme proj args).1,
              isInstallOrLaunchStep s = false) := by
  refine ⟨⟨?_, ?_⟩, ?_, ?_, ?_⟩
  · rintro ⟨a, ha⟩
    by_contra h
    simp [buildProject, h] at ha
  · intro h
    exact ⟨resolvedProductName benv.stdout scheme, by simp [buildProject, h]⟩
  · intro h
    refine ⟨by simp [buildProject, h], ?_, ?_⟩
    · exact ⟨"\n            Failed to build iOS project.\n\n            We ran \"xcodebuild\" command but it exited with error code ",
        ". To debug build\n            logs further, consider building your app with "
          ++ ("Xcode.app" ++ (", by opening\n            "
          ++ (proj.name ++ ".\n          "))),
        by simp [buildFailMessage, String.append_assoc]⟩
    · exact ⟨"\n            Failed to build iOS project.\n\n            We ran \"xcodebuild\" command but it exited with error code "
          ++ toString benv.exitCode
          ++ ". To debug build\n            logs further, consider building your app with ",
        ", by opening\n            " ++ (proj.name ++ ".\n          "),
        by simp [buildFailMessage, String.append_assoc]⟩
  · intro h
    rw [runOnSimulator_build_fail senv sim proj scheme args h]
    exact ⟨rfl, no_install_in_prebuild senv sim proj scheme args⟩
  · intro h
    have hb2 : (buildProject denv.build proj d.udid scheme args).2
        = Except.error ⟨buildFailMessage denv.build.exitCode proj.name,
            denv.build.stderr⟩ := by
      simp [buildProject, h]
    have hrd : runOnDevice denv d scheme proj args
        = ((buildProject denv.build proj d.udid scheme args).1,
           some (RunError.cli ⟨buildFailMessage denv.build.exitCode proj.name,
             denv.build.stderr⟩)) := by
      simp only [runOnDevice, hb2]
    rw [hrd]
    refine ⟨rfl, ?_⟩
    intro s hs
    rw [buildProject_fst] at hs
    simp only [List.mem_cons, List.not_mem_nil, or_false] at hs
    rcases hs with rfl | rfl
    · rfl
    · rfl

/-- Concrete check of C6 (the spec's end-to-end scenario C): a build
exiting with code 65 makes the simulator run fail with the captured
stderr and perform no install or launch step. -/
theorem buildProject_gate_witness :
    (({ exitCode := 65, stdout := "", stderr := "error text" } : BuildEnv).exitCode ≠ 0)
      ∧ (runOnSimulator
            { boot := BootOutcome.exited 255,
              build := { exitCode := 65, stdout := "", stderr := "error text" },
              installStatus := 0, plist := PlistOutcome.ok "com.test",
              launchStatus := 0 }
            devA1 ⟨"App.xcodeproj", false⟩ "App"
            { simulator := "iPhone X", configuration := "Debug", scheme := none,
              projectPath := "ios", device := none, udid := none,
              packager := true, verbose := false, port := 8081,
              terminal := none }).2
          = some (RunError.cli
              ⟨buildFailMessage 65 "App.xcodeproj", "error text"⟩)
      ∧ ∀ s ∈ (runOnSimulator
            { boot := BootOutcome.exited 255,
              build := { exitCode := 65, stdout := "", stderr := "error text" },
              installStatus := 0, plist := PlistOutcome.ok "com.test",
              launchStatus := 0 }
            devA1 ⟨"App.xcodeproj", false⟩ "App"
            { simulator := "iPhone X", configuration := "Debug", scheme := none,
              projectPath := "ios", device := none, udid := none,
              packager := true, verbose := false, port := 8081,
              terminal := none }).1,
          isInstallOrLaunchStep s = false :=
  ⟨by decide,
   (buildProject_gate { exitCode := 65, stdout := "", stderr := "error text" }
      ⟨"App.xcodeproj", false⟩ "u" "App"
      { simulator := "iPhone X", configuration := "Debug", scheme := none,
        projectPath := "ios", device := none, udid := none,
        packager := true, verbose := false, port := 8081, terminal := none }
      { boot := BootOutcome.exited 255,
        build := { exitCode := 65, stdout := "", stderr := "error text" },
        installStatus := 0, plist := PlistOutcome.ok "com.test",
        launchStatus := 0 }
      { build := { exitCode := 65, stdout := "", stderr := "error text" },
        iosDeployError := false }
      devA1 devA1).2.2.1 (by decide)⟩

/-! ### Fixtures for concrete checks -/

/-- Default command-line arguments, as the option defaults give them. -/
def testArgs : FlagsT :=
  { simulator := "iPhone X", configuration := "Debug", scheme := none,
    projectPath := "ios", device := none, udid := none, packager := true,
    verbose := false, port := 8081, terminal := none }

/-- A single-target project file. -/
def testProj : XcodeProject := ⟨"App.xcodeproj", false⟩

/-- A benign simulator environment: boot quirk exit 255, clean build,
readable metadata. -/
def testSimEnv : SimEnv :=
  { boot := BootOutcome.exited 255,
    build := { exitCode := 0, stdout := "", stderr := "" },
    installStatus := 0, plist := PlistOutcome.ok "com.test",
    launchStatus := 0 }

/-- A benign whole-run environment. -/
def testRunEnv : RunEnv :=
  { simListParses := true, selectedSimulator := some devA1, sim := testSimEnv,
    dev := { build := { exitCode := 0, stdout := "", stderr := "" },
             iosDeployError := false } }

/-! ### C7: the not-found diagnostics -/

/-- An entry of a concatenation occurs in it as a substring. -/
theorem concatAll_contains {s : String} {l : List String} (h : s ∈ l) :
    ∃ p q, concatAll l = p ++ (s ++ q) := by
  induction l with
  | nil => cases h
  | cons x xs ih =>
    rcases List.mem_cons.mp h with rfl | h'
    · refine ⟨"", concatAll xs, ?_⟩
      apply String.ext
      simp [concatAll, String.data_append]
    · obtain ⟨p, q, hpq⟩ := ih h'
      refine ⟨x ++ p, q, ?_⟩
      show x ++ concatAll xs = (x ++ p) ++ (s ++ q)
      rw [hpq, String.append_assoc]

/-- Every device of the list occurs, with its udid, in the rendered
candidate list. -/
theorem printFoundDevices_contains (devices : List Device) (d : Device)
    (h : d ∈ devices) :
    ∃ p q, printFoundDevices devices
        = p ++ ((d.name ++ " Udid: " ++ d.udid ++ "\n") ++ q) := by
  apply concatAll_contains
  rw [List.mem_map]
  exact ⟨d, List.mem_reverse.mpr h, rfl⟩

/-- The selector branch when no device matched: the error message is
the candidate-list variant exactly when candidates exist. -/
theorem selectRun_none (devices : List Device) (args : FlagsT)
    (hsel : (truthyDevice args.device || truthyUdid args.udid) = true)
    (hnone : (selectedDeviceOf devices args).1 = none) :
    selectRun devices args
      = (RunStart.errorMessage
          (if 0 < devices.length then notFoundMessage devices args
           else "No iOS devices connected."),
         (selectedDeviceOf devices args).2) := by
  unfold selectRun
  rw [hsel]
  simp only [if_true, hnone]
  by_cases hl : 0 < devices.length
  · simp [hl]
  · simp [hl]

/-- C7: when a device/udid selector is supplied and no device matches,
the run stops before any build: with a non-empty candidate list it logs
the choose-one-of diagnostic in which every candidate is rendered, with
an empty list it logs the distinct no-devices message; in both cases
the trace contains no build, install or launch step and no error is
raised. -/
theorem selectRun_not_found (env : RunEnv) (devices : List Device)
    (proj : XcodeProject) (inferred : String) (args : FlagsT)
    (hsel : (truthyDevice args.device || truthyUdid args.udid) = true)
    (hnone : (selectedDeviceOf devices args).1 = none) :
    (devices ≠ [] →
        (selectRun devices args).1
            = RunStart.errorMessage (notFoundMessage devices args)
          ∧ ∀ d ∈ devices, ∃ p q,
              notFoundMessage devices args
                = p ++ ((d.name ++ " Udid: " ++ d.udid ++ "\n") ++ q))
      ∧ (devices = [] →
          (selectRun devices args).1
            = RunStart.errorMessage "No iOS devices connected.")
      ∧ (runIOS env devices proj inferred args).2 = none
      ∧ ∀ s ∈ (runIOS env devices proj inferred args).1,
          isInstallOrLaunchStep s = false ∧ isBuildInvocation s = false := by
  have hsr := selectRun_none devices args hsel hnone
  have hrio : runIOS env devices proj inferred args
      = (Step.logInfo ("Found Xcode "
            ++ (if proj.isWorkspace then "workspace" else "project")
            ++ " " ++ proj.name)
          :: (((selectedDeviceOf devices args).2).map Step.logInfo
            ++ [Step.logError
                (if 0 < devices.length then notFoundMessage devices args
                 else "No iOS devices connected.")]),
         none) := by
    simp only [runIOS, hsr]
  refine ⟨?_, ?_, ?_, ?_⟩
  · intro hne
    have hl : 0 < devices.length := List.length_pos.mpr hne
    constructor
    · rw [hsr]
      simp [hl]
    · intro d hd
      obtain ⟨p, q, hpq⟩ := printFoundDevices_contains devices d hd
      unfold notFoundMessage
      by_cases htd : truthyDevice args.device
      · refine ⟨("Could not find device with the name: \""
            ++ deviceArgToString args.device
            ++ "\". Choose one of the following:\n") ++ p, q, ?_⟩
        simp [htd, hpq, String.append_assoc]
      · refine ⟨("Could not find device with the udid: \""
            ++ args.udid.getD ""
            ++ "\". Choose one of the following:\n") ++ p, q, ?_⟩
        simp [htd, hpq, String.append_assoc]
  · intro hnil
    subst hnil
    rw [hsr]
    simp
  · rw [hrio]
  · intro s hs
    rw [hrio] at hs
    simp only [List.mem_cons, List.mem_append, List.mem_map,
      List.not_mem_nil, or_false] at hs
    rcases hs with rfl | ⟨m, _, rfl⟩ | rfl
    · exact ⟨rfl, rfl⟩
    · exact ⟨rfl, rfl⟩
    · exact ⟨rfl, rfl⟩

/-- Concrete check of C7: a udid selector matching nothing against a
one-device list produces the choose-one-of outcome and a run with no
error raised. -/
theorem selectRun_not_found_witness :
    (truthyDevice ({ testArgs with udid := some "nope" } : FlagsT).device
        || truthyUdid ({ testArgs with udid := some "nope" } : FlagsT).udid) = true
      ∧ (selectedDeviceOf [devA1] { testArgs with udid := some "nope" }).1 = none
      ∧ (selectRun [devA1] { testArgs with udid := some "nope" }).1
          = RunStart.errorMessage
              (notFoundMessage [devA1] { testArgs with udid := some "nope" })
      ∧ (runIOS testRunEnv [devA1] testProj "App"
          { testArgs with udid := some "nope" }).2 = none :=
  ⟨by decide, by decide,
   ((selectRun_not_found testRunEnv [devA1] testProj "App"
      { testArgs with udid := some "nope" } (by decide) (by decide)).1
      (by decide)).1,
   (selectRun_not_found testRunEnv [devA1] testProj "App"
      { testArgs with udid := some "nope" } (by decide) (by decide)).2.2.1⟩

/-! ### C8: the boot-quirk swallowing -/

/-- C8 counterexample: the catch around the boot call is a catch-all,
so a thrown boot failure -- a failure mode other than the known
non-zero exit -- is masked as well: the wrapper reports no error for
it, where the claim requires any failure mode other than the non-zero
exit not to be masked. -/
theorem bootSimulator_swallows_throw_counterexample :
    (bootSimulator (BootOutcome.threw "spawn failure") devA1).2 = none := rfl

/-- C8 amended: the wrapper swallows every failure of the boot call --
the known non-zero exit and thrown failures alike -- and the swallowing
is scoped to that call alone: no boot outcome surfaces an error, the
whole simulator run is unaffected by which boot outcome occurred, and
the run always proceeds to the build invocation. -/
theorem bootSimulator_swallow_amended (o o' : BootOutcome) (b : BuildEnv)
    (i l : Int) (p : PlistOutcome) (senv : SimEnv) (sim : Device)
    (proj : XcodeProject) (scheme : String) (args : FlagsT) :
    (bootSimulator o sim).2 = none
      ∧ runOnSimulator ⟨o, b, i, p, l⟩ sim proj scheme args
          = runOnSimulator ⟨o', b, i, p, l⟩ sim proj scheme args
      ∧ Step.xcodebuild ∈ (runOnSimulator senv sim proj scheme args).1 := by
  refine ⟨bootErrorAfterCatch_eq_none o, ?_, ?_⟩
  · have hb : bootSimulator o sim = bootSimulator o' sim := by
      cases o <;> cases o' <;> rfl
    rw [runOnSimulator_unfold, runOnSimulator_unfold]
    simp only [hb]
  · by_cases h : senv.build.exitCode = 0
    · cases hp : senv.plist with
      | ok raw =>
        rw [runOnSimulator_build_ok_plist_ok senv sim proj scheme args raw h hp,
          buildProject_fst]
        simp
      | threw msg =>
        rw [runOnSimulator_build_ok_plist_threw senv sim proj scheme args msg h hp,
          buildProject_fst]
        simp
    · rw [runOnSimulator_build_fail senv sim proj scheme args h,
        buildProject_fst]
      simp

/-! ### C9: post-build failure handling -/

/-- A simulator environment whose install step fails (simctl install
exits 1) while everything else succeeds. -/
def simEnvInstallFail : SimEnv :=
  { boot := BootOutcome.exited 255,
    build := { exitCode := 0, stdout := "", stderr := "" },
    installStatus := 1, plist := PlistOutcome.ok "com.test",
    launchStatus := 0 }

/-- A device environment whose ios-deploy spawn fails. -/
def devEnvDeployFail : DevEnv :=
  { build := { exitCode := 0, stdout := "", stderr := "" },
    iosDeployError := true }

/-- C9 counterexample: on the virtual-device path a failing install
(simctl install exiting 1) is not reported at all: the trace contains
the failing install step yet no logger.error step and hence no
remediation guidance, contradicting the claim that every install or
launch subprocess failure is reported. -/
theorem install_failure_unreported_counterexample :
    ((runOnSimulator simEnvInstallFail devA1 testProj "App" testArgs).1.all
        (fun s => !(isLogErrorStep s))) = true
      ∧ Step.simctlInstall devA1.udid
          (simAppPath simEnvInstallFail "App" testArgs) 1
          ∈ (runOnSimulator simEnvInstallFail devA1 testProj "App" testArgs).1 := by
  constructor <;> decide

/-- The possible steps of the boot-if-needed phase. -/
theorem mem_bootIf {s : Step} (env : SimEnv) (sim : Device)
    (hs : s ∈ (if sim.booted then []
        else (bootSimulator env.boot sim).1)) :
    s = Step.logInfo ("Launching " ++ formattedDeviceName sim ++ "...")
      ∨ s = Step.bootInstruments sim.udid := by
  cases hbt : sim.booted
  · rw [hbt] at hs
    simpa [bootSimulator] using hs
  · rw [hbt] at hs
    simp at hs

/-- C9 amended: after a successful build, install and launch subprocess
failures abort nothing and raise nothing on either path: the simulator
flow performs the launch after the install and returns no error
whatever the install and launch exit statuses, inspecting neither and
logging no error about them; the device flow returns no error whatever
the installer outcome, and logs the remediation guidance exactly when
the ios-deploy spawn itself failed (logging success otherwise, even on
a non-zero installer exit); the bundle-metadata read is the one
post-build step of the simulator flow whose failure raises. -/
theorem post_build_failures_amended (senv : SimEnv) (denv : DevEnv)
    (sim d : Device) (proj : XcodeProject) (scheme : String) (args : FlagsT)
    (raw msg : String)
    (hs0 : senv.build.exitCode = 0) (hd0 : denv.build.exitCode = 0) :
    (senv.plist = PlistOutcome.ok raw →
        (runOnSimulator senv sim proj scheme args).2 = none
        ∧ Step.simctlLaunch sim.udid (strTrim raw) senv.launchStatus
            ∈ (runOnSimulator senv sim proj scheme args).1
        ∧ Step.simctlInstall sim.udid (simAppPath senv scheme args)
            senv.installStatus
            ∈ (runOnSimulator senv sim proj scheme args).1
        ∧ ∀ s ∈ (runOnSimulator senv sim proj scheme args).1,
            isLogErrorStep s = false)
      ∧ (senv.plist = PlistOutcome.threw msg →
          (runOnSimulator senv sim proj scheme args).2
            = some (RunError.subprocess msg))
      ∧ ((runOnDevice denv d scheme proj args).2 = none
        ∧ (denv.iosDeployError = true →
            Step.logError installFailedMessage
              ∈ (runOnDevice denv d scheme proj args).1)
        ∧ (denv.iosDeployError = false →
            Step.logInfo "** INSTALLATION SUCCEEDED **"
              ∈ (runOnDevice denv d scheme proj args).1)) := by
  have hb2 : (buildProject denv.build proj d.udid scheme args).2
      = Except.ok (resolvedProductName denv.build.stdout scheme) := by
    simp [buildProject, hd0]
  have hrd : runOnDevice denv d scheme proj args
      = ((buildProject denv.build proj d.udid scheme args).1
          ++ [Step.logInfo ("Installing and launching your app on "
                ++ d.name ++ "..."),
              Step.iosDeploy
                ["--bundle",
                 getBuildPath args.configuration
                   (resolvedProductName denv.build.stdout scheme) true scheme,
                 "--id", d.udid, "--justlaunch"] denv.iosDeployError]
          ++ (if denv.iosDeployError then [Step.logError installFailedMessage]
              else [Step.logInfo "** INSTALLATION SUCCEEDED **"]),
         none) := by
    simp only [runOnDevice, hb2]
  refine ⟨?_, ?_, ?_, ?_, ?_⟩
  · intro hp
    rw [runOnSimulator_build_ok_plist_ok senv sim proj scheme args raw hs0 hp]
    refine ⟨rfl, by simp, by simp, ?_⟩
    intro s hs
    rcases List.mem_cons.mp hs with rfl | hs2
    · rfl
    · rcases List.mem_append.mp hs2 with hs3 | hs4
      · rcases List.mem_append.mp hs3 with hs5 | hs6
        · rcases mem_bootIf senv sim hs5 with rfl | rfl <;> rfl
        · rw [buildProject_fst] at hs6
          simp only [List.mem_cons, List.not_mem_nil, or_false] at hs6
          rcases hs6 with rfl | rfl <;> rfl
      · simp only [List.mem_cons, List.not_mem_nil, or_false] at hs4
        rcases hs4 with rfl | rfl | rfl | rfl | rfl <;> rfl
  · intro hp
    rw [runOnSimulator_build_ok_plist_threw senv sim proj scheme args msg hs0 hp]
  · rw [hrd]
  · intro hde
    rw [hrd, hde]
    simp
  · intro hde
    rw [hrd, hde]
    simp

/-- Concrete check of C9 as amended: a failing simulator install still
ends in a launch with no error raised; a failing ios-deploy spawn logs
the remediation guidance and raises nothing. -/
theorem post_build_failures_amended_witness :
    (runOnSimulator simEnvInstallFail devA1 testProj "App" testArgs).2 = none
      ∧ Step.simctlLaunch devA1.udid (strTrim "com.test") 0
          ∈ (runOnSimulator simEnvInstallFail devA1 testProj "App" testArgs).1
      ∧ (runOnDevice devEnvDeployFail devA1 "App" testProj testArgs).2 = none
      ∧ Step.logError installFailedMessage
          ∈ (runOnDevice devEnvDeployFail devA1 "App" testProj testArgs).1 :=
  ⟨((post_build_failures_amended simEnvInstallFail devEnvDeployFail devA1 devA1
      testProj "App" testArgs "com.test" "x" rfl rfl).1 rfl).1,
   ((post_build_failures_amended simEnvInstallFail devEnvDeployFail devA1 devA1
      testProj "App" testArgs "com.test" "x" rfl rfl).1 rfl).2.1,
   (post_build_failures_amended simEnvInstallFail devEnvDeployFail devA1 devA1
      testProj "App" testArgs "com.test" "x" rfl rfl).2.2.1,
   (post_build_failures_amended simEnvInstallFail devEnvDeployFail devA1 devA1
      testProj "App" testArgs "com.test" "x" rfl rfl).2.2.2.1 rfl⟩

/-! ### C10: precedence of the name selector over the udid selector -/

/-- C10 counterexample: with an empty-string device name and a udid
both supplied, the empty string is falsy in the source's ternary, so
matching falls back to the udid and selects by udid -- the run proceeds
onto that device -- even though the name selector matches nothing and
the claim says the udid selector is ignored whenever a name selector is
supplied. -/
theorem empty_name_udid_counterexample :
    (selectRun [devA1]
        { testArgs with
          device := some (DeviceNameArg.str ""),
          udid := some "ud12" }).1
        = RunStart.onDevice devA1
      ∧ (matchingDevice [devA1] (DeviceNameArg.str "")).1 = none := by
  constructor <;> decide

/-- C10 amended: when both selectors are supplied and the device-name
value is truthy (a non-empty string or the bare flag), matching is
performed by name only: the selector branch behaves exactly as if no
udid had been supplied, and a name match runs on the matched device; an
empty-string device name is falsy and selection falls back to the udid
selector. -/
theorem name_over_udid_amended (devices : List Device) (n : DeviceNameArg)
    (u : String) (args : FlagsT)
    (h : truthyDevice (some n) = true) :
    selectRun devices { args with device := some n, udid := some u }
        = selectRun devices { args with device := some n, udid := none }
      ∧ (∀ d, (matchingDevice devices n).1 = some d →
          (selectRun devices
              { args with
                device := some n,
                udid := some u }).1
            = RunStart.onDevice d) := by
  constructor
  · cases hm : (matchingDevice devices n).1 with
    | some d =>
      simp [selectRun, selectedDeviceOf, h, hm]
    | none =>
      simp [selectRun, selectedDeviceOf, notFoundMessage, h, hm]
  · intro d hd
    simp [selectRun, selectedDeviceOf, h, hd]

/-- Concrete check of C10 as amended: with a truthy name selector the
udid value does not influence the outcome. -/
theorem name_over_udid_amended_witness :
    truthyDevice (some (DeviceNameArg.str "iPhone 8")) = true
      ∧ selectRun [devA1]
            { testArgs with
              device := some (DeviceNameArg.str "iPhone 8"),
              udid := some "zz" }
          = selectRun [devA1]
              { testArgs with
                device := some (DeviceNameArg.str "iPhone 8"),
                udid := none } :=
  ⟨by decide,
   (name_over_udid_amended [devA1] (DeviceNameArg.str "iPhone 8") "zz" testArgs
      (by decide)).1⟩

end RunIOS
